import Mathlib

/-!
Shallow embedding of the rate-limiting / identity / verification core of the
customgpt-starter-kit rate-limit labs repository.

The embedding follows the TypeScript sources:
  * `src/lib/rate-limit.ts` (unnamed part_001): window arithmetic,
    `checkWindowLimit`, `isRouteInScope`, `applyRateLimit`;
  * `src/lib/identity.ts`: `loadConfig`, `extractJwtSubject`,
    `extractSessionId`, `extractHashedIp`, `getIdentityKey`;
  * `src/lib/turnstile-verification.ts`: `getTurnstileConfig`,
    `isTurnstileRequired`, `hasValidCachedVerification`, `isIdentityVerified`,
    `cacheVerification`.

External effects are made explicit:
  * the Redis store is a value threaded through the functions, together with a
    log of the store operations that actually executed;
  * reachability of the store is a boolean parameter (false models a call that
    throws / times out, landing in the corresponding `catch` block);
  * library calls with behaviour outside this repository (jose JWT
    verification/decoding, `crypto.subtle` SHA-256, `decodeURIComponent`) are
    oracle parameters; `none` models a thrown exception.

JavaScript peculiarities that matter to the claims are modelled explicitly:
string truthiness (`"" || x`), `Math.max(0, a - b)` as truncated `Nat`
subtraction, and the `new Date(ts*1000)` month-start computation (assuming the
usual UTC server timezone) via the standard civil-calendar conversion.
-/

set_option autoImplicit false

namespace CustomGPT

/-- Association-list lookup keyed by strings (models a JS object / Map read:
the single binding for a key). -/
def lookupStr {α : Type} : List (String × α) → String → Option α
  | [], _ => none
  | (k, v) :: rest, key => if k = key then some v else lookupStr rest key

/-- Association-list update (models `obj[key] = value` / `Map.set`:
overwrites the binding for the key, keeps other bindings). -/
def insertStr {α : Type} : List (String × α) → String → α → List (String × α)
  | [], key, v => [(key, v)]
  | (k, w) :: rest, key, v =>
    if k = key then (key, v) :: rest else (k, w) :: insertStr rest key v

/-- Association-list deletion (models `Map.delete`). -/
def removeStr {α : Type} : List (String × α) → String → List (String × α)
  | [], _ => []
  | (k, v) :: rest, key =>
    if k = key then removeStr rest key else (k, v) :: removeStr rest key

/-- JS string truthiness: `s || null` yields `null` for `null`/`undefined`
and for the empty string. -/
def jsTruthy : Option String → Option String
  | none => none
  | some s => if s = "" then none else some s

/-- JS `s.startsWith(pre)` (on code points; executable in the kernel, unlike
the byte-position-based `String.startsWith`). -/
def jsStartsWith (s pre : String) : Bool :=
  pre.data.isPrefixOf s.data

/-- JS `s.split(c)` for a single-character separator. -/
def jsSplitOnChar (c : Char) (s : String) : List String :=
  (s.data.splitOn c).map String.mk

/-- JS `s.trim()`. -/
def jsTrim (s : String) : String :=
  String.mk (((s.data.dropWhile Char.isWhitespace).reverse.dropWhile
    Char.isWhitespace).reverse)

/-- JS `s.substring(n)`. -/
def jsDrop (s : String) (n : Nat) : String :=
  String.mk (s.data.drop n)

/-- JS `s.substring(0, n)`. -/
def jsTake (s : String) (n : Nat) : String :=
  String.mk (s.data.take n)

/-- The four window units of the rate limiter (`minute`, `hour`, `day`,
`month` in `src/lib/rate-limit.ts`). -/
inductive WindowType where
  | minute
  | hour
  | day
  | month
  deriving DecidableEq, Repr

/-- The unit's name as used in Redis keys and headers. -/
def WindowType.name : WindowType → String
  | .minute => "minute"
  | .hour => "hour"
  | .day => "day"
  | .month => "month"

/-- Civil date (year, month 1..12, day 1..31) of a day count since the Unix
epoch, for nonnegative day counts.  Models the field extraction
`new Date(timestamp * 1000)` / `getFullYear()` / `getMonth()` performed by
`getWindowStart` for the month window, assuming a UTC server timezone
(standard civil-from-days conversion). -/
def civilFromDays (z : Nat) : Nat × Nat × Nat :=
  let doe := z + 719468
  let era := doe / 146097
  let d := doe % 146097
  let yoe := (d - d / 1460 + d / 36524 - d / 146096) / 365
  let y := yoe + era * 400
  let doy := d - (365 * yoe + yoe / 4 - yoe / 100)
  let mp := (5 * doy + 2) / 153
  let dd := doy - (153 * mp + 2) / 5 + 1
  let m := if mp < 10 then mp + 3 else mp - 9
  (if m ≤ 2 then y + 1 else y, m, dd)

/-- Epoch day count of a civil date (inverse of `civilFromDays`); models
`new Date(year, month, 1).getTime() / 1000` restricted to dates at or after
the epoch. -/
def daysFromCivil (y m d : Nat) : Nat :=
  let yy := if m ≤ 2 then y - 1 else y
  let era := yy / 400
  let yoe := yy % 400
  let mp := if 2 < m then m - 3 else m + 9
  let doy := (153 * mp + 2) / 5 + d - 1
  let doe := yoe * 365 + yoe / 4 - yoe / 100 + doy
  era * 146097 + doe - 719468

/-- Epoch second of the start of the month containing `timestamp`
(`getWindowStart`, case `month`). -/
def monthStartEpoch (timestamp : Nat) : Nat :=
  let c := civilFromDays (timestamp / 86400)
  daysFromCivil c.1 c.2.1 1 * 86400

/-- `getWindowStart` from `src/lib/rate-limit.ts`: the aligned start of the
window containing `timestamp`.  (The function's `default` branch is
unreachable from `applyRateLimit`, which only passes the four units.) -/
def getWindowStart : WindowType → Nat → Nat
  | .minute, t => t - t % 60
  | .hour, t => t - t % 3600
  | .day, t => t - t % 86400
  | .month, t => monthStartEpoch t

/-- The `ttlMap` of `getResetTime`: nominal duration of each window unit in
seconds (a month is taken as 30 days). -/
def windowDuration : WindowType → Nat
  | .minute => 60
  | .hour => 3600
  | .day => 86400
  | .month => 2592000

/-- `getResetTime` from `src/lib/rate-limit.ts`. -/
def getResetTime (w : WindowType) (windowStart : Nat) : Nat :=
  windowStart + windowDuration w

/-- `generateRedisKey` from `src/lib/rate-limit.ts`. -/
def generateRedisKey (identityKey : String) (w : WindowType) (windowStart : Nat) : String :=
  "rate:" ++ w.name ++ ":" ++ toString windowStart ++ ":" ++ identityKey

/-- A rate-counter entry: the integer count and the absolute instant (epoch
second) at which Redis will delete the key.  Every counter in this program
gets its expiry in the same pipeline as its increment, so an entry always
carries one. -/
structure CounterEntry where
  count : Nat
  expiresAt : Nat
  deriving DecidableEq, Repr

/-- The rate-limit counters held by Redis. -/
structure RedisState where
  counts : List (String × CounterEntry)
  deriving DecidableEq, Repr

/-- The entry Redis reports for `key` at instant `now`: an entry whose
expiry has passed is gone (Redis deletes expired keys transparently, so
`GET`/`INCR`/`EXISTS` never observe it). -/
def liveEntry (st : RedisState) (key : String) (now : Nat) : Option CounterEntry :=
  match lookupStr st.counts key with
  | none => none
  | some e => if now < e.expiresAt then some e else none

/-- The counter value a `GET` (or an `INCR` base) observes at `now`:
`0` for an absent or expired key. -/
def countOf (st : RedisState) (key : String) (now : Nat) : Nat :=
  ((liveEntry st key now).map CounterEntry.count).getD 0

/-- Net effect on the store of the pipeline `INCR key; EXPIRE key ttl`
executed at instant `now`: `INCR` returns the live value plus one (an
absent or expired key restarts at 1), and the immediately following
`EXPIRE` overwrites the key's lifetime — a positive `ttl` makes the key
die `ttl` seconds from `now`, while a non-positive `ttl` deletes the key
at once (Redis `EXPIRE` semantics for zero or negative timeouts). -/
def runIncrExpire (st : RedisState) (key : String) (now : Nat) (ttl : Int) :
    Nat × RedisState :=
  let newCount := countOf st key now + 1
  (newCount,
    if ttl ≤ 0 then ⟨removeStr st.counts key⟩
    else ⟨insertStr st.counts key ⟨newCount, now + ttl.toNat⟩⟩)

/-- Store operations that actually executed against Redis, recorded so frame
conditions ("does not touch the store") can be stated. -/
inductive RedisOp where
  | incr (key : String) (result : Nat)
  | expire (key : String) (ttl : Int)
  | get (key : String)
  deriving DecidableEq, Repr

/-- Reachability of Redis for the two kinds of calls `applyRateLimit` makes:
`pipelineOk = false` models the `pipeline.exec()` throwing, `getOk = false`
models the trailing `redis.get` throwing. -/
structure RedisHealth where
  pipelineOk : Bool
  getOk : Bool
  deriving DecidableEq, Repr

def healthyRedis : RedisHealth := ⟨true, true⟩

def emptyState : RedisState := ⟨[]⟩

/-- `RateLimitResult` from `src/lib/rate-limit.ts`. -/
structure RateLimitResult where
  allowed : Bool
  headers : List (String × String)
  remaining : Nat
  resetTime : Nat
  limit : Nat
  window : String
  deriving DecidableEq, Repr

/-- Result of one window check together with the store state after it and the
operations that executed. -/
structure WindowCheck where
  result : RateLimitResult
  state : RedisState
  ops : List RedisOp
  deriving DecidableEq, Repr

/-- `checkWindowLimit` from `src/lib/rate-limit.ts`.  The happy path runs the
`INCR` + `EXPIRE resetTime - timestamp` pipeline and allows iff the
post-increment count is at most the limit (`remaining` is
`Math.max(0, limit - count)`, here truncated `Nat` subtraction); the `catch`
branch (pipeline threw) allows with the `redis-unavailable` marker and
touches nothing. -/
def checkWindowLimit (health : RedisHealth) (st : RedisState) (identityKey : String)
    (w : WindowType) (limit : Nat) (timestamp : Nat) : WindowCheck :=
  let windowStart := getWindowStart w timestamp
  let resetTime := getResetTime w windowStart
  let redisKey := generateRedisKey identityKey w windowStart
  if health.pipelineOk then
    let pipeRes := runIncrExpire st redisKey timestamp
      ((resetTime : Int) - (timestamp : Int))
    let count := pipeRes.1
    let allowed := decide (count ≤ limit)
    let remaining := limit - count
    { result :=
      { allowed := allowed
        headers :=
          [("X-RateLimit-Limit", toString limit),
           ("X-RateLimit-Remaining", toString remaining),
           ("X-RateLimit-Reset", toString resetTime),
           ("X-RateLimit-Window", w.name)] ++
          (if allowed then []
           else [("Retry-After", toString ((resetTime : Int) - (timestamp : Int)))])
        remaining := remaining
        resetTime := resetTime
        limit := limit
        window := w.name }
      state := pipeRes.2
      ops := [RedisOp.incr redisKey count,
              RedisOp.expire redisKey ((resetTime : Int) - (timestamp : Int))] }
  else
    { result :=
      { allowed := true
        headers :=
          [("X-RateLimit-Limit", toString limit),
           ("X-RateLimit-Remaining", toString limit),
           ("X-RateLimit-Reset", toString (timestamp + 60)),
           ("X-RateLimit-Window", w.name),
           ("X-RateLimit-Error", "redis-unavailable")]
        remaining := limit
        resetTime := timestamp + 60
        limit := limit
        window := w.name }
      state := st
      ops := [] }

/-- The identity strategies of the zod `ConfigSchema` enum in
`src/lib/identity.ts`. -/
inductive Strategy where
  | jwtSub
  | sessionCookie
  | ip
  deriving DecidableEq, Repr

/-- The `limits.global` object of the configuration schema. -/
structure Limits where
  minute : Nat
  hour : Nat
  day : Nat
  month : Nat
  deriving DecidableEq, Repr

/-- The validated configuration (`ConfigSchema` in `src/lib/identity.ts`).
Limits are the nonnegative integers the spec's data model prescribes. -/
structure Config where
  identityOrder : List Strategy
  jwtSecret : Option String
  limits : Limits
  routesInScope : List String
  turnstileEnabled : Option Bool
  deriving DecidableEq, Repr

/-- The limit configured for a window unit. -/
def Limits.forWindow (l : Limits) : WindowType → Nat
  | .minute => l.minute
  | .hour => l.hour
  | .day => l.day
  | .month => l.month

/-- `isRouteInScope` from `src/lib/rate-limit.ts`: some configured route
pattern is a prefix of the request path. -/
def isRouteInScope (cfg : Config) (path : String) : Bool :=
  cfg.routesInScope.any (fun route => jsStartsWith path route)

/-- `identityKey.split(':')[0]` — the identity kind exposed in the
`X-RateLimit-Identity` header. -/
def identityKind (identityKey : String) : String :=
  (jsSplitOnChar ':' identityKey).headD ""

/-- The window order `['minute', 'hour', 'day', 'month']` checked by
`applyRateLimit`. -/
def windowsOrder : List WindowType :=
  [WindowType.minute, WindowType.hour, WindowType.day, WindowType.month]

/-- The `for (const window of windows)` loop of `applyRateLimit`: windows with
a zero (falsy) limit are skipped; the first denied window returns immediately
with the `X-RateLimit-Identity` header appended; `none` means every
configured window allowed. -/
def checkWindows (health : RedisHealth) (cfg : Config) (identityKey : String)
    (timestamp : Nat) :
    List WindowType → RedisState → List RedisOp →
      Option RateLimitResult × RedisState × List RedisOp
  | [], st, ops => (none, st, ops)
  | w :: rest, st, ops =>
    if cfg.limits.forWindow w ≠ 0 then
      let c := checkWindowLimit health st identityKey w (cfg.limits.forWindow w) timestamp
      if c.result.allowed then
        checkWindows health cfg identityKey timestamp rest c.state (ops ++ c.ops)
      else
        (some { c.result with
                  headers := c.result.headers ++
                    [("X-RateLimit-Identity", identityKind identityKey)] },
         c.state, ops ++ c.ops)
    else
      checkWindows health cfg identityKey timestamp rest st ops

/-- `applyRateLimit` from `src/lib/rate-limit.ts`.  `identityKey` stands for
the value `await getIdentityKey(request)` computed at the top of the
function, and `path` for `new URL(request.url).pathname`; both are inputs
here so that the limiter is a function of explicit data.  Out-of-scope routes
short-circuit with the scope-excluded marker before any store access.  After
all windows pass, the function re-reads the minute counter (`redis.get`) to
report the remaining quota; if that read throws, the defaults
(`limits.minute`, `now + 60`) are kept and no error surfaces. -/
def applyRateLimit (health : RedisHealth) (cfg : Config) (st : RedisState)
    (identityKey path : String) (timestamp : Nat) :
    RateLimitResult × RedisState × List RedisOp :=
  if isRouteInScope cfg path = false then
    ({ allowed := true
       headers := [("X-RateLimit-Scope", "excluded")]
       remaining := 999999
       resetTime := timestamp + 3600
       limit := 999999
       window := "none" }, st, [])
  else
    match checkWindows health cfg identityKey timestamp windowsOrder st [] with
    | (some denied, st2, ops) => (denied, st2, ops)
    | (none, st2, ops) =>
      let mlim := cfg.limits.minute
      let windowStart := getWindowStart WindowType.minute timestamp
      let redisKey := generateRedisKey identityKey WindowType.minute windowStart
      let headerLimit := if mlim = 0 then 999999 else mlim
      let actualRemaining :=
        if mlim = 0 then 999999
        else if health.getOk then mlim - countOf st2 redisKey timestamp
        else mlim
      let actualResetTime :=
        if mlim = 0 then timestamp + 60
        else if health.getOk then getResetTime WindowType.minute windowStart
        else timestamp + 60
      let ops2 :=
        if mlim ≠ 0 ∧ health.getOk = true then ops ++ [RedisOp.get redisKey] else ops
      ({ allowed := true
         headers :=
           [("X-RateLimit-Limit", toString headerLimit),
            ("X-RateLimit-Remaining", toString actualRemaining),
            ("X-RateLimit-Reset", toString actualResetTime),
            ("X-RateLimit-Window", "minute"),
            ("X-RateLimit-Identity", identityKind identityKey)]
         remaining := actualRemaining
         resetTime := actualResetTime
         limit := headerLimit
         window := "minute" }, st2, ops2)

/-- Store state after `k` requests against the same identity/window/limit,
request number `j + 1` arriving at time `ts j`, with the store healthy and
initially empty. -/
def requestSeqState (identityKey : String) (w : WindowType) (limit : Nat)
    (ts : Nat → Nat) : Nat → RedisState
  | 0 => emptyState
  | k + 1 =>
    (checkWindowLimit healthyRedis (requestSeqState identityKey w limit ts k)
      identityKey w limit (ts k)).state

/-- Result of request number `k + 1` in the sequence of `requestSeqState`. -/
def requestSeqResult (identityKey : String) (w : WindowType) (limit : Nat)
    (ts : Nat → Nat) (k : Nat) : RateLimitResult :=
  (checkWindowLimit healthyRedis (requestSeqState identityKey w limit ts k)
    identityKey w limit (ts k)).result

/-! ### Basic lemmas about the store model -/

theorem lookupStr_insertStr_self {α : Type} (l : List (String × α)) (key : String) (v : α) :
    lookupStr (insertStr l key v) key = some v := by
  induction l with
  | nil => simp [insertStr, lookupStr]
  | cons hd tl ih =>
    obtain ⟨k, w⟩ := hd
    by_cases h : k = key
    · simp [insertStr, h, lookupStr]
    · simp [insertStr, h, lookupStr, ih]

theorem checkWindowLimit_counts_step (st : RedisState) (identityKey : String)
    (w : WindowType) (limit t : Nat)
    (hlt : t < getResetTime w (getWindowStart w t)) :
    (checkWindowLimit healthyRedis st identityKey w limit t).state.counts =
      insertStr st.counts (generateRedisKey identityKey w (getWindowStart w t))
        ⟨countOf st (generateRedisKey identityKey w (getWindowStart w t)) t + 1,
         getResetTime w (getWindowStart w t)⟩ := by
  have hpos : ¬ ((getResetTime w (getWindowStart w t) : Int) - (t : Int) ≤ 0) := by
    omega
  have ht : t + (getResetTime w (getWindowStart w t) - t) =
      getResetTime w (getWindowStart w t) := by
    omega
  simp [checkWindowLimit, healthyRedis, runIncrExpire, hpos, ht]

theorem checkWindowLimit_allowed (st : RedisState) (identityKey : String)
    (w : WindowType) (limit : Nat) (t : Nat) :
    (checkWindowLimit healthyRedis st identityKey w limit t).result.allowed =
      decide (countOf st (generateRedisKey identityKey w (getWindowStart w t)) t + 1 ≤ limit) := by
  simp [checkWindowLimit, healthyRedis, runIncrExpire]

theorem checkWindowLimit_remaining (st : RedisState) (identityKey : String)
    (w : WindowType) (limit : Nat) (t : Nat) :
    (checkWindowLimit healthyRedis st identityKey w limit t).result.remaining =
      limit - (countOf st (generateRedisKey identityKey w (getWindowStart w t)) t + 1) := by
  simp [checkWindowLimit, healthyRedis, runIncrExpire]

theorem checkWindowLimit_retry_after (st : RedisState) (identityKey : String)
    (w : WindowType) (limit : Nat) (t : Nat)
    (h : limit < countOf st (generateRedisKey identityKey w (getWindowStart w t)) t + 1) :
    ("Retry-After",
        toString ((getResetTime w (getWindowStart w t) : Int) - (t : Int))) ∈
      (checkWindowLimit healthyRedis st identityKey w limit t).result.headers := by
  simp only [checkWindowLimit, healthyRedis]
  have hdec :
      decide (countOf st (generateRedisKey identityKey w (getWindowStart w t)) t + 1 ≤ limit)
        = false := by
    simp only [decide_eq_false_iff_not]
    omega
  simp [hdec, runIncrExpire]

theorem requestSeqState_lookup (identityKey : String) (w : WindowType) (limit : Nat)
    (ts : Nat → Nat) (ws : Nat) (k : Nat)
    (h : ∀ j, j < k → getWindowStart w (ts j) = ws)
    (h2 : ∀ j, j < k → ts j < getResetTime w ws) :
    lookupStr (requestSeqState identityKey w limit ts k).counts
        (generateRedisKey identityKey w ws) =
      (if k = 0 then none else some ⟨k, getResetTime w ws⟩) := by
  induction k with
  | zero => simp [requestSeqState, emptyState, lookupStr]
  | succ n ih =>
    have hws : getWindowStart w (ts n) = ws := h n (by omega)
    have hlt : ts n < getResetTime w ws := h2 n (by omega)
    have hlt2 : ts n < getResetTime w (getWindowStart w (ts n)) := by
      rw [hws]; exact hlt
    have ihn := ih (fun j hj => h j (by omega)) (fun j hj => h2 j (by omega))
    have hcount : countOf (requestSeqState identityKey w limit ts n)
        (generateRedisKey identityKey w ws) (ts n) = n := by
      by_cases hn : n = 0
      · subst hn
        simp only [countOf, liveEntry, ihn]
        simp
      · simp only [countOf, liveEntry, ihn]
        simp [hn, hlt]
    rw [requestSeqState, checkWindowLimit_counts_step _ _ _ _ _ hlt2, hws, hcount,
      lookupStr_insertStr_self]
    simp

/-! ### C1: per-window counting behaviour of `checkWindowLimit` -/

/-- **C1** (amended).  For any identity and any enforced window with limit
`N`, requests `1..N` within the same window against the same counter key
return `allowed = true` with `remaining = N - count` (`count` being the
post-increment value), and request `N + 1` within the same window returns
`allowed = false` with `remaining = 0` and a strictly positive `Retry-After`
header equal to `resetTime - now` — provided every request precedes the
window's reset time (the pipelined `EXPIRE` makes the counter die exactly at
`resetTime`).  The last conjunct shows this proviso is automatic for the
minute, hour and day windows: every instant of those windows precedes the
reset.  For the month window the reset (`windowStart + 30 days`) can precede
the end of a longer calendar month, after which the counter has expired and
request `N + 1` in the same window can be allowed again — see the
counterexample. -/
theorem checkWindowLimit_sequence_behavior
    (identityKey : String) (w : WindowType) (N : Nat) (ts : Nat → Nat) (ws : Nat)
    (hts : ∀ j, j ≤ N → getWindowStart w (ts j) = ws)
    (hlive : ∀ j, j ≤ N → ts j < getResetTime w ws) :
    (∀ i, 1 ≤ i → i ≤ N →
      (requestSeqResult identityKey w N ts (i - 1)).allowed = true ∧
      (requestSeqResult identityKey w N ts (i - 1)).remaining = N - i) ∧
    (requestSeqResult identityKey w N ts N).allowed = false ∧
    (requestSeqResult identityKey w N ts N).remaining = 0 ∧
    ("Retry-After", toString ((getResetTime w ws : Int) - (ts N : Int))) ∈
      (requestSeqResult identityKey w N ts N).headers ∧
    0 < (getResetTime w ws : Int) - (ts N : Int) ∧
    (w ≠ WindowType.month →
      ∀ t, getWindowStart w t = ws → t < getResetTime w ws) := by
  have hcount : ∀ k, k ≤ N →
      countOf (requestSeqState identityKey w N ts k)
        (generateRedisKey identityKey w ws) (ts k) = k := by
    intro k hk
    have hlk := requestSeqState_lookup identityKey w N ts ws k
      (fun j hj => hts j (by omega)) (fun j hj => hlive j (by omega))
    by_cases hk0 : k = 0
    · subst hk0
      simp only [countOf, liveEntry, hlk]
      simp
    · simp only [countOf, liveEntry, hlk]
      simp [hk0, hlive k hk]
  refine ⟨?_, ?_, ?_, ?_, ?_, ?_⟩
  · intro i h1 hiN
    have hws : getWindowStart w (ts (i - 1)) = ws := hts (i - 1) (by omega)
    have hc : countOf (requestSeqState identityKey w N ts (i - 1))
        (generateRedisKey identityKey w (getWindowStart w (ts (i - 1)))) (ts (i - 1)) = i - 1 := by
      rw [hws]; exact hcount (i - 1) (by omega)
    constructor
    · rw [requestSeqResult, checkWindowLimit_allowed, hc]
      simp only [decide_eq_true_eq]
      omega
    · rw [requestSeqResult, checkWindowLimit_remaining, hc]
      omega
  · have hws : getWindowStart w (ts N) = ws := hts N (le_refl N)
    have hc : countOf (requestSeqState identityKey w N ts N)
        (generateRedisKey identityKey w (getWindowStart w (ts N))) (ts N) = N := by
      rw [hws]; exact hcount N (le_refl N)
    rw [requestSeqResult, checkWindowLimit_allowed, hc]
    simp
  · have hws : getWindowStart w (ts N) = ws := hts N (le_refl N)
    have hc : countOf (requestSeqState identityKey w N ts N)
        (generateRedisKey identityKey w (getWindowStart w (ts N))) (ts N) = N := by
      rw [hws]; exact hcount N (le_refl N)
    rw [requestSeqResult, checkWindowLimit_remaining, hc]
    omega
  · have hws : getWindowStart w (ts N) = ws := hts N (le_refl N)
    have hc : countOf (requestSeqState identityKey w N ts N)
        (generateRedisKey identityKey w (getWindowStart w (ts N))) (ts N) = N := by
      rw [hws]; exact hcount N (le_refl N)
    have := checkWindowLimit_retry_after (requestSeqState identityKey w N ts N)
      identityKey w N (ts N) (by rw [hc]; omega)
    rw [requestSeqResult, ← hws]
    exact this
  · have := hlive N (le_refl N)
    omega
  · intro hm t hwt
    rw [← hwt]
    cases w with
    | minute => simp only [getWindowStart, getResetTime, windowDuration]; omega
    | hour => simp only [getWindowStart, getResetTime, windowDuration]; omega
    | day => simp only [getWindowStart, getResetTime, windowDuration]; omega
    | month => exact absurd rfl hm

/-- Witness for C1: minute window, limit 1, both requests at epoch 0 — the
first request is allowed with no remaining quota, the second is denied with
a positive `Retry-After` of 60 seconds. -/
theorem checkWindowLimit_sequence_behavior_witness :
    (requestSeqResult "ip:abc" WindowType.minute 1 (fun _ => 0) 0).allowed = true ∧
    (requestSeqResult "ip:abc" WindowType.minute 1 (fun _ => 0) 1).allowed = false ∧
    ("Retry-After", "60") ∈
      (requestSeqResult "ip:abc" WindowType.minute 1 (fun _ => 0) 1).headers ∧
    0 < (getResetTime WindowType.minute 0 : Int) - (0 : Int) := by
  have h := checkWindowLimit_sequence_behavior "ip:abc" WindowType.minute 1
    (fun _ => 0) 0 (fun j _ => rfl) (fun j _ => (by decide : (0 : Nat) < 60))
  refine ⟨(h.1 1 (by decide) (by decide)).1, h.2.1, ?_, ?_⟩
  · have hm := h.2.2.2.1
    simpa using hm
  · exact h.2.2.2.2.1

/-- Counterexample for C1 as stated: in the month window the counter dies at
`resetTime = windowStart + 30 days` even though the window — and hence the
`CounterKey` — covers the whole calendar month.  At `now = 1675166400`
(2023-01-31 12:00:00 UTC; window start 1672531200 = 2023-01-01, reset
1675123200 already 12 hours past) each request's pipelined
`EXPIRE resetTime - now = -43200` deletes the counter immediately, so with
limit `N = 1` both requests see count 1: request `N + 1 = 2` within the
same window is *allowed* (the store is empty again before it), not denied
as the claim requires. -/
theorem checkWindowLimit_month_expired_counter_allows :
    getWindowStart WindowType.month 1675166400 = 1672531200 ∧
    (getResetTime WindowType.month 1672531200 : Int) - 1675166400 = -43200 ∧
    (requestSeqResult "ip:abc" WindowType.month 1 (fun _ => 1675166400) 0).allowed = true ∧
    (requestSeqState "ip:abc" WindowType.month 1 (fun _ => 1675166400) 1).counts = [] ∧
    (requestSeqResult "ip:abc" WindowType.month 1 (fun _ => 1675166400) 1).allowed = true := by
  decide

/-! ### C5: the TTL applied alongside the increment -/

/-- **C5** (amended).  Each window check executes exactly one `INCR` and one
`EXPIRE` in a single pipeline; the TTL applied is `resetTime - now` — the
time remaining until the window resets — not the window's full duration.
For the minute, hour and day windows this is `duration - now % duration`, so
it equals the full duration only when the increment happens at the window's
first second. -/
theorem checkWindowLimit_ttl_semantics (st : RedisState) (identityKey : String)
    (w : WindowType) (limit : Nat) (t : Nat) :
    (checkWindowLimit healthyRedis st identityKey w limit t).ops =
      [RedisOp.incr (generateRedisKey identityKey w (getWindowStart w t))
          (countOf st (generateRedisKey identityKey w (getWindowStart w t)) t + 1),
       RedisOp.expire (generateRedisKey identityKey w (getWindowStart w t))
          ((getResetTime w (getWindowStart w t) : Int) - (t : Int))] ∧
    (w ≠ WindowType.month →
      (getResetTime w (getWindowStart w t) : Int) - (t : Int) =
        (windowDuration w : Int) - ((t % windowDuration w : Nat) : Int)) := by
  constructor
  · simp [checkWindowLimit, healthyRedis, runIncrExpire]
  · intro hm
    cases w with
    | minute => simp only [getWindowStart, getResetTime, windowDuration]; omega
    | hour => simp only [getWindowStart, getResetTime, windowDuration]; omega
    | day => simp only [getWindowStart, getResetTime, windowDuration]; omega
    | month => exact absurd rfl hm

/-- Witness for C5: a minute-window increment at `t = 90` (30 seconds into
the window starting at 60) applies a TTL of 30 seconds. -/
theorem checkWindowLimit_ttl_semantics_witness :
    (checkWindowLimit healthyRedis emptyState "ip:abc" WindowType.minute 10 90).ops =
      [RedisOp.incr "rate:minute:60:ip:abc" 1,
       RedisOp.expire "rate:minute:60:ip:abc" 30] ∧
    (getResetTime WindowType.minute (getWindowStart WindowType.minute 90) : Int) - (90 : Nat) =
      (windowDuration WindowType.minute : Int) - ((90 % windowDuration WindowType.minute : Nat) : Int) := by
  have h := checkWindowLimit_ttl_semantics emptyState "ip:abc" WindowType.minute 10 90
  exact ⟨by rw [h.1]; decide, h.2 (by decide)⟩

/-- Counterexample for C5 as stated: an increment 30 seconds into a minute
window applies a TTL of 30 seconds, not the window's full 60-second
duration. -/
theorem checkWindowLimit_ttl_midwindow :
    RedisOp.expire "rate:minute:0:ip:abc" 30 ∈
      (checkWindowLimit healthyRedis emptyState "ip:abc" WindowType.minute 10 30).ops ∧
    windowDuration WindowType.minute = 60 ∧ (30 : Int) ≠ 60 := by
  decide

/-! ### C2: fail-open behaviour when the store errors -/

theorem checkWindows_outage (cfg : Config) (identityKey : String) (t : Nat) :
    ∀ (wsl : List WindowType) (st : RedisState) (ops : List RedisOp),
      checkWindows ⟨false, false⟩ cfg identityKey t wsl st ops = (none, st, ops) := by
  intro wsl
  induction wsl with
  | nil => intro st ops; rfl
  | cons w rest ih =>
    intro st ops
    by_cases h : cfg.limits.forWindow w = 0
    · simp [checkWindows, h, ih]
    · simp [checkWindows, h, checkWindowLimit, ih]

/-- **C2** (amended).  When a store call throws, the limiter fails open and
never propagates the error: a window check whose pipeline throws returns
`allowed = true` with the `redis-unavailable` marker header and touches
nothing.  However, `applyRateLimit` only surfaces a window result when it is
a denial, and degraded window results are always allowed, so during a full
store outage `applyRateLimit` returns `allowed = true` whose headers carry
no `X-RateLimit-Error` marker at all (the degradation is invisible to the
caller), while still performing no store operation. -/
theorem rateLimit_fail_open_semantics :
    (∀ (st : RedisState) (identityKey : String) (w : WindowType) (limit t : Nat),
      (checkWindowLimit ⟨false, false⟩ st identityKey w limit t).result.allowed = true ∧
      ("X-RateLimit-Error", "redis-unavailable") ∈
        (checkWindowLimit ⟨false, false⟩ st identityKey w limit t).result.headers ∧
      (checkWindowLimit ⟨false, false⟩ st identityKey w limit t).state = st ∧
      (checkWindowLimit ⟨false, false⟩ st identityKey w limit t).ops = []) ∧
    (∀ (cfg : Config) (st : RedisState) (identityKey path : String) (t : Nat),
      (applyRateLimit ⟨false, false⟩ cfg st identityKey path t).1.allowed = true ∧
      lookupStr (applyRateLimit ⟨false, false⟩ cfg st identityKey path t).1.headers
          "X-RateLimit-Error" = none ∧
      (applyRateLimit ⟨false, false⟩ cfg st identityKey path t).2.1 = st ∧
      (applyRateLimit ⟨false, false⟩ cfg st identityKey path t).2.2 = []) := by
  constructor
  · intro st identityKey w limit t
    refine ⟨rfl, ?_, rfl, rfl⟩
    simp [checkWindowLimit]
  · intro cfg st identityKey path t
    by_cases hscope : isRouteInScope cfg path = false
    · simp [applyRateLimit, hscope, lookupStr]
    · have hscope2 : isRouteInScope cfg path = true := by
        cases h : isRouteInScope cfg path
        · exact absurd h hscope
        · rfl
      simp only [applyRateLimit, hscope2, Bool.true_eq_false, if_false,
        checkWindows_outage]
      by_cases hm : cfg.limits.minute = 0
      · simp [hm, lookupStr]
      · simp [hm, lookupStr]

/-- Counterexample for C2 as stated: with only a minute limit configured and
the store entirely unreachable, `applyRateLimit` fails open but its output
headers contain no degradation marker, so the caller cannot distinguish
"allowed because healthy" from "allowed because degraded". -/
theorem applyRateLimit_outage_marker_missing :
    (applyRateLimit ⟨false, false⟩
        { identityOrder := [Strategy.ip], jwtSecret := none,
          limits := ⟨5, 0, 0, 0⟩, routesInScope := ["/api/proxy"],
          turnstileEnabled := some false }
        emptyState "ip:abc" "/api/proxy/projects" 100).1.allowed = true ∧
    lookupStr (applyRateLimit ⟨false, false⟩
        { identityOrder := [Strategy.ip], jwtSecret := none,
          limits := ⟨5, 0, 0, 0⟩, routesInScope := ["/api/proxy"],
          turnstileEnabled := some false }
        emptyState "ip:abc" "/api/proxy/projects" 100).1.headers
      "X-RateLimit-Error" = none := by
  decide

/-! ### C8: out-of-scope routes bypass all counter work -/

/-- **C8** (confirmed).  A request whose route path matches no pattern in
`routesInScope` is allowed with the scope-excluded marker as its only
header, leaves the store untouched and executes no store operation,
whatever the store contents and health. -/
theorem applyRateLimit_out_of_scope (health : RedisHealth) (cfg : Config)
    (st : RedisState) (identityKey path : String) (t : Nat)
    (h : isRouteInScope cfg path = false) :
    applyRateLimit health cfg st identityKey path t =
      ({ allowed := true
         headers := [("X-RateLimit-Scope", "excluded")]
         remaining := 999999
         resetTime := t + 3600
         limit := 999999
         window := "none" }, st, []) := by
  simp [applyRateLimit, h]

/-- Witness for C8: the path `/health` is outside the configured scope
`["/api/proxy"]`, so the request is allowed without touching a store that
already holds a large count for the caller. -/
theorem applyRateLimit_out_of_scope_witness :
    isRouteInScope
        { identityOrder := [Strategy.ip], jwtSecret := none,
          limits := ⟨5, 0, 0, 0⟩, routesInScope := ["/api/proxy"],
          turnstileEnabled := some false } "/health" = false ∧
    applyRateLimit healthyRedis
        { identityOrder := [Strategy.ip], jwtSecret := none,
          limits := ⟨5, 0, 0, 0⟩, routesInScope := ["/api/proxy"],
          turnstileEnabled := some false }
        ⟨[("rate:minute:0:ip:abc", ⟨1000, 60⟩)]⟩ "ip:abc" "/health" 42 =
      ({ allowed := true
         headers := [("X-RateLimit-Scope", "excluded")]
         remaining := 999999
         resetTime := 3642
         limit := 999999
         window := "none" }, ⟨[("rate:minute:0:ip:abc", ⟨1000, 60⟩)]⟩, []) := by
  exact ⟨by decide,
    applyRateLimit_out_of_scope healthyRedis
      { identityOrder := [Strategy.ip], jwtSecret := none,
        limits := ⟨5, 0, 0, 0⟩, routesInScope := ["/api/proxy"],
        turnstileEnabled := some false }
      ⟨[("rate:minute:0:ip:abc", ⟨1000, 60⟩)]⟩ "ip:abc" "/health" 42 (by decide)⟩

/-! ### The identity module (`src/lib/identity.ts`) -/

/-- The hardcoded default configuration returned by `loadConfig`'s `catch`
block. -/
def defaultConfig : Config :=
  { identityOrder := [Strategy.jwtSub, Strategy.sessionCookie, Strategy.ip]
    jwtSecret := none
    limits := ⟨10, 100, 1000, 30000⟩
    routesInScope := ["/api/proxy/projects", "/api/proxy/user"]
    turnstileEnabled := some false }

/-- The module-level mutable state of `src/lib/identity.ts`:
`cachedConfig` and `configLastModified`. -/
structure ConfigState where
  cachedConfig : Option Config
  configLastModified : Int
  deriving DecidableEq, Repr

/-- What reading the backing source yields in one call to `loadConfig`:
`none` models `fs.statSync`/`fs.readFileSync` throwing; `some (mtime, p)`
gives the file's `mtimeMs` and the outcome of `JSON.parse` +
`ConfigSchema.parse` (`none` when either throws). -/
def ConfigSource : Type := Option (Int × Option Config)

/-- `loadConfig` from `src/lib/identity.ts`.  Reload happens when there is no
cached config or the source's mtime is newer than the recorded one; any
failure lands in the `catch` block, which returns the hardcoded default (and
leaves the module state untouched).  The function never throws. -/
def loadConfig (src : ConfigSource) (st : ConfigState) : Config × ConfigState :=
  match src with
  | none => (defaultConfig, st)
  | some (mtime, parsed) =>
    match st.cachedConfig with
    | none =>
      match parsed with
      | some cfg => (cfg, ⟨some cfg, mtime⟩)
      | none => (defaultConfig, st)
    | some c =>
      if st.configLastModified < mtime then
        match parsed with
        | some cfg => (cfg, ⟨some cfg, mtime⟩)
        | none => (defaultConfig, st)
      else (c, st)

/-- Oracle for the jose library.  `verifySub token secret` is `jwtVerify`:
`none` models a thrown verification error (bad signature, expired, garbage),
`some sub` a verified payload with its optional `sub` claim.  `decodeSub
token` is `decodeJwt`: `none` models a thrown decode error, `some sub` a
decoded (unverified) payload's optional `sub` claim. -/
structure JoseModel where
  verifySub : String → String → Option (Option String)
  decodeSub : String → Option (Option String)

/-- `extractJwtSubject` from `src/lib/identity.ts`.  The bearer token is the
header after `"Bearer "`.  With a (truthy) configured secret, `jwtVerify` is
tried first and its `payload.sub || null` returned on success; if
verification throws, the code falls through to the unverified `decodeJwt`
path — the same path used when no secret is configured.  All errors are
caught and yield `null`. -/
def extractJwtSubject (jose : JoseModel) (cfg : Config) (authHeader : Option String) :
    Option String :=
  match authHeader with
  | none => none
  | some h =>
    if jsStartsWith h "Bearer " then
      let token := jsDrop h 7
      match jsTruthy cfg.jwtSecret with
      | some secret =>
        match jose.verifySub token secret with
        | some payloadSub => jsTruthy payloadSub
        | none =>
          match jose.decodeSub token with
          | some payloadSub => jsTruthy payloadSub
          | none => none
      | none =>
        match jose.decodeSub token with
        | some payloadSub => jsTruthy payloadSub
        | none => none
    else none

/-- The request data consumed by the identity strategies. -/
structure Request where
  authHeader : Option String
  cookieHeader : Option String
  forwardedFor : Option String
  realIp : Option String
  cfConnectingIp : Option String
  requestIp : Option String
  deriving Repr

/-- One step of the `reduce` in `extractSessionId`: a cookie fragment is
trimmed and split on `=`; when both name and value are non-empty the value
is `decodeURIComponent`-ed and recorded (overwriting an earlier binding).
`decodeU` returning `none` models `decodeURIComponent` throwing, which
aborts the whole parse (caught by the function's `catch`). -/
def addCookiePair (decodeU : String → Option String)
    (acc : Option (List (String × String))) (cookie : String) :
    Option (List (String × String)) :=
  match acc with
  | none => none
  | some l =>
    let parts := jsSplitOnChar '=' (jsTrim cookie)
    let name := parts.headD ""
    let value := (parts.get? 1).getD ""
    if name = "" ∨ value = "" then some l
    else
      match decodeU value with
      | some v => some (insertStr l name v)
      | none => none

/-- The cookie-header parse of `extractSessionId`. -/
def parseCookieHeader (decodeU : String → Option String) (header : String) :
    Option (List (String × String)) :=
  (jsSplitOnChar ';' header).foldl (addCookiePair decodeU) (some [])

/-- `extractSessionId` from `src/lib/identity.ts`.  `cookieStoreSession` is
the value of `cookies().get('sessionId')?.value` (`none` when the Next.js
cookie store is unavailable, throws, or has no such cookie); otherwise the
raw `Cookie` header is parsed and `parsedCookies.sessionId || null`
returned.  All errors are caught and yield `null`. -/
def extractSessionId (decodeU : String → Option String)
    (cookieStoreSession : Option String) (req : Request) : Option String :=
  match jsTruthy cookieStoreSession with
  | some v => some v
  | none =>
    match jsTruthy req.cookieHeader with
    | none => none
    | some header =>
      match parseCookieHeader decodeU header with
      | none => none
      | some l => jsTruthy (lookupStr l "sessionId")

/-- `extractHashedIp` from `src/lib/identity.ts`.  The client IP is the
first `x-forwarded-for` entry, else `x-real-ip`, else `cf-connecting-ip`,
else `request.ip`, else `'127.0.0.1'` (JS `||` chaining, so empty strings
fall through).  `sha256hex` is the `crypto.subtle` SHA-256 hex digest
(`none` models a throw); its first 16 characters are the key, and on any
error the fixed string `"unknown"` is returned. -/
def extractHashedIp (sha256hex : String → Option String) (req : Request) : String :=
  let ip :=
    match jsTruthy (req.forwardedFor.map (fun s => jsTrim ((jsSplitOnChar ',' s).headD ""))) with
    | some v => v
    | none =>
      match jsTruthy req.realIp with
      | some v => v
      | none =>
        match jsTruthy req.cfConnectingIp with
        | some v => v
        | none =>
          match jsTruthy req.requestIp with
          | some v => v
          | none => "127.0.0.1"
  match sha256hex ip with
  | some hex => jsTake hex 16
  | none => "unknown"

/-- The external oracles the identity waterfall depends on. -/
structure IdentityOracles where
  jose : JoseModel
  sha256hex : String → Option String
  decodeU : String → Option String
  cookieStoreSession : Option String

/-- The `for (const method of config.identityOrder)` loop of
`getIdentityKey`: each strategy is tried in order (all strategies are total
in this model, matching the per-strategy `try`/`catch` that turns any
internal error into "this strategy failed"); the `ip` strategy always
returns.  An exhausted order falls back to `'anonymous'`. -/
def runStrategies (o : IdentityOracles) (cfg : Config) (req : Request) :
    List Strategy → String
  | [] => "anonymous"
  | Strategy.jwtSub :: rest =>
    match jsTruthy (extractJwtSubject o.jose cfg req.authHeader) with
    | some s => "jwt:" ++ s
    | none => runStrategies o cfg req rest
  | Strategy.sessionCookie :: rest =>
    match jsTruthy (extractSessionId o.decodeU o.cookieStoreSession req) with
    | some s => "session:" ++ s
    | none => runStrategies o cfg req rest
  | Strategy.ip :: _ => "ip:" ++ extractHashedIp o.sha256hex req

/-- `getIdentityKey` from `src/lib/identity.ts` (with the already-loaded
configuration as input). -/
def getIdentityKey (o : IdentityOracles) (cfg : Config) (req : Request) : String :=
  runStrategies o cfg req cfg.identityOrder

/-! ### C4: configuration failure semantics -/

/-- **C4** (amended).  `loadConfig` never throws, but on read or validation
failure it returns the hardcoded default even when a last-known-good
snapshot exists; the cached snapshot is returned only when the stat
succeeds and the source's mtime is not newer than the recorded one (in
which case no reload is attempted). -/
theorem loadConfig_failure_semantics :
    (∀ st : ConfigState, loadConfig none st = (defaultConfig, st)) ∧
    (∀ (st : ConfigState) (c : Config) (mtime : Int),
      st.cachedConfig = some c → st.configLastModified < mtime →
      loadConfig (some (mtime, none)) st = (defaultConfig, st)) ∧
    (∀ (st : ConfigState) (c : Config) (mtime : Int) (parsed : Option Config),
      st.cachedConfig = some c → ¬ st.configLastModified < mtime →
      loadConfig (some (mtime, parsed)) st = (c, st)) ∧
    (∀ (mtime : Int) (last : Int),
      loadConfig (some (mtime, none)) ⟨none, last⟩ = (defaultConfig, ⟨none, last⟩)) := by
  refine ⟨fun st => rfl, ?_, ?_, fun mtime last => rfl⟩
  · intro st c mtime hc hm
    simp [loadConfig, hc, hm]
  · intro st c mtime parsed hc hm
    simp [loadConfig, hc, hm]

/-- Witness for C4: with a snapshot cached at mtime 5 and the file gone
(stat throws), `loadConfig` returns the default; with the file present but
unchanged, it returns the snapshot. -/
theorem loadConfig_failure_semantics_witness :
    loadConfig none
        ⟨some { identityOrder := [Strategy.ip], jwtSecret := none,
                limits := ⟨7, 100, 1000, 30000⟩, routesInScope := ["/x"],
                turnstileEnabled := none }, 5⟩ =
      (defaultConfig,
        ⟨some { identityOrder := [Strategy.ip], jwtSecret := none,
                limits := ⟨7, 100, 1000, 30000⟩, routesInScope := ["/x"],
                turnstileEnabled := none }, 5⟩) ∧
    loadConfig (some (5, none))
        ⟨some { identityOrder := [Strategy.ip], jwtSecret := none,
                limits := ⟨7, 100, 1000, 30000⟩, routesInScope := ["/x"],
                turnstileEnabled := none }, 5⟩ =
      ({ identityOrder := [Strategy.ip], jwtSecret := none,
         limits := ⟨7, 100, 1000, 30000⟩, routesInScope := ["/x"],
         turnstileEnabled := none },
        ⟨some { identityOrder := [Strategy.ip], jwtSecret := none,
                limits := ⟨7, 100, 1000, 30000⟩, routesInScope := ["/x"],
                turnstileEnabled := none }, 5⟩) := by
  refine ⟨loadConfig_failure_semantics.1 _, ?_⟩
  exact loadConfig_failure_semantics.2.2.1 _
    { identityOrder := [Strategy.ip], jwtSecret := none,
      limits := ⟨7, 100, 1000, 30000⟩, routesInScope := ["/x"],
      turnstileEnabled := none } 5 none rfl (by decide)

/-- Counterexample for C4 as stated: a last-known-good snapshot (minute
limit 7) is cached, the backing file then becomes unreadable — `loadConfig`
returns the hardcoded default, not the snapshot. -/
theorem loadConfig_failure_ignores_snapshot :
    (loadConfig none
        ⟨some { identityOrder := [Strategy.ip], jwtSecret := none,
                limits := ⟨7, 100, 1000, 30000⟩, routesInScope := ["/x"],
                turnstileEnabled := none }, 5⟩).1 = defaultConfig ∧
    defaultConfig ≠
      { identityOrder := [Strategy.ip], jwtSecret := none,
        limits := ⟨7, 100, 1000, 30000⟩, routesInScope := ["/x"],
        turnstileEnabled := none } := by
  decide

/-! ### C3: JWT subject extraction and the unverified-decode fallback -/

/-- **C3** (amended).  With a configured (truthy) verification secret, a
bearer token is first passed to `jwtVerify`: on success the verified
`payload.sub || null` is returned.  But when verification throws, the code
falls back to the unverified `decodeJwt` path — exactly the behaviour of
the no-secret mode — so a subject-derived identity can be produced for a
token whose signature never verified, even with a secret configured. -/
theorem extractJwtSubject_secret_semantics (jose : JoseModel) (cfg : Config)
    (h secret : String)
    (hsec : jsTruthy cfg.jwtSecret = some secret)
    (hb : jsStartsWith h "Bearer " = true) :
    (∀ p, jose.verifySub (jsDrop h 7) secret = some p →
      extractJwtSubject jose cfg (some h) = jsTruthy p) ∧
    (jose.verifySub (jsDrop h 7) secret = none →
      extractJwtSubject jose cfg (some h) =
        extractJwtSubject jose { cfg with jwtSecret := none } (some h)) := by
  constructor
  · intro p hp
    simp [extractJwtSubject, hb, hsec, hp]
  · intro hv
    simp only [extractJwtSubject, hb, if_true, hsec, hv]
    simp [jsTruthy]

/-- Witness for C3: with secret `"k"` configured and a token that verifies
with subject `alice`, the verified subject is returned. -/
theorem extractJwtSubject_secret_semantics_witness :
    extractJwtSubject ⟨fun _ _ => some (some "alice"), fun _ => none⟩
        { identityOrder := [Strategy.jwtSub], jwtSecret := some "k",
          limits := ⟨10, 100, 1000, 30000⟩, routesInScope := ["/api"],
          turnstileEnabled := none }
        (some "Bearer tok") = some "alice" := by
  have h := (extractJwtSubject_secret_semantics
    ⟨fun _ _ => some (some "alice"), fun _ => none⟩
    { identityOrder := [Strategy.jwtSub], jwtSecret := some "k",
      limits := ⟨10, 100, 1000, 30000⟩, routesInScope := ["/api"],
      turnstileEnabled := none }
    "Bearer tok" "k" (by decide) (by decide)).1 (some "alice") rfl
  simpa [jsTruthy] using h

/-- Counterexample for C3 as stated: secret `"secret"` is configured,
`jwtVerify` throws on the forged token, yet the unverified decode still
yields subject `user123` and the waterfall returns `jwt:user123`. -/
theorem extractJwtSubject_unverified_fallback_with_secret :
    extractJwtSubject ⟨fun _ _ => none, fun _ => some (some "user123")⟩
        { identityOrder := [Strategy.jwtSub], jwtSecret := some "secret",
          limits := ⟨10, 100, 1000, 30000⟩, routesInScope := ["/api"],
          turnstileEnabled := none }
        (some "Bearer forged.token") = some "user123" ∧
    getIdentityKey
        ⟨⟨fun _ _ => none, fun _ => some (some "user123")⟩,
         fun _ => some "h", fun s => some s, none⟩
        { identityOrder := [Strategy.jwtSub], jwtSecret := some "secret",
          limits := ⟨10, 100, 1000, 30000⟩, routesInScope := ["/api"],
          turnstileEnabled := none }
        ⟨some "Bearer forged.token", none, none, none, none, none⟩ = "jwt:user123" := by
  decide

/-! ### C10: totality of the `ip` strategy -/

theorem jwtKey_ne_anonymous (s : String) : ("jwt:" ++ s) ≠ "anonymous" := by
  obtain ⟨l⟩ := s
  intro h
  have h2 : some 'j' = some 'a' := congrArg (fun t => t.data.head?) h
  exact absurd h2 (by decide)

theorem sessionKey_ne_anonymous (s : String) : ("session:" ++ s) ≠ "anonymous" := by
  obtain ⟨l⟩ := s
  intro h
  have h2 : some 's' = some 'a' := congrArg (fun t => t.data.head?) h
  exact absurd h2 (by decide)

theorem ipKey_ne_anonymous (s : String) : ("ip:" ++ s) ≠ "anonymous" := by
  obtain ⟨l⟩ := s
  intro h
  have h2 : some 'i' = some 'a' := congrArg (fun t => t.data.head?) h
  exact absurd h2 (by decide)

theorem runStrategies_ip_ne_anonymous (o : IdentityOracles) (cfg : Config)
    (req : Request) :
    ∀ ms : List Strategy, Strategy.ip ∈ ms →
      runStrategies o cfg req ms ≠ "anonymous" := by
  intro ms
  induction ms with
  | nil => intro h; cases h
  | cons m rest ih =>
    intro hm
    cases m with
    | jwtSub =>
      have hrest : Strategy.ip ∈ rest := by
        cases hm with
        | tail _ h => exact h
      cases hj : jsTruthy (extractJwtSubject o.jose cfg req.authHeader) with
      | some s => simpa [runStrategies, hj] using jwtKey_ne_anonymous s
      | none => simpa [runStrategies, hj] using ih hrest
    | sessionCookie =>
      have hrest : Strategy.ip ∈ rest := by
        cases hm with
        | tail _ h => exact h
      cases hs : jsTruthy (extractSessionId o.decodeU o.cookieStoreSession req) with
      | some s => simpa [runStrategies, hs] using sessionKey_ne_anonymous s
      | none => simpa [runStrategies, hs] using ih hrest
    | ip =>
      simpa [runStrategies] using ipKey_ne_anonymous (extractHashedIp o.sha256hex req)

/-- **C10** (confirmed).  With the `ip` strategy anywhere in the configured
order, identity resolution never returns the `'anonymous'` fallback: the
`ip` strategy is total, and when IP hashing errors it yields the fixed
digest `"unknown"`, so every caller on the error path collapses into the
single shared identity `"ip:unknown"`. -/
theorem getIdentityKey_ip_never_anonymous (o : IdentityOracles) (cfg : Config)
    (req : Request) :
    (Strategy.ip ∈ cfg.identityOrder → getIdentityKey o cfg req ≠ "anonymous") ∧
    ((∀ s, o.sha256hex s = none) → extractHashedIp o.sha256hex req = "unknown") ∧
    (∀ rest : List Strategy, (∀ s, o.sha256hex s = none) →
      runStrategies o cfg req (Strategy.ip :: rest) = "ip:unknown") := by
  refine ⟨?_, ?_, ?_⟩
  · intro hip
    exact runStrategies_ip_ne_anonymous o cfg req cfg.identityOrder hip
  · intro hsha
    simp [extractHashedIp, hsha]
  · intro rest hsha
    simp [runStrategies, extractHashedIp, hsha]

/-- Witness for C10: the default strategy order contains `ip`; with every
oracle failing (no auth material, hashing throws) the resolved identity is
`"ip:unknown"`, never `"anonymous"`. -/
theorem getIdentityKey_ip_never_anonymous_witness :
    getIdentityKey
        ⟨⟨fun _ _ => none, fun _ => none⟩, fun _ => none, fun s => some s, none⟩
        defaultConfig ⟨none, none, none, none, none, none⟩ ≠ "anonymous" ∧
    runStrategies
        ⟨⟨fun _ _ => none, fun _ => none⟩, fun _ => none, fun s => some s, none⟩
        defaultConfig ⟨none, none, none, none, none, none⟩
        [Strategy.ip] = "ip:unknown" := by
  have h := getIdentityKey_ip_never_anonymous
    ⟨⟨fun _ _ => none, fun _ => none⟩, fun _ => none, fun s => some s, none⟩
    defaultConfig ⟨none, none, none, none, none, none⟩
  exact ⟨h.1 (by decide), h.2.2 [] (fun s => rfl)⟩

/-! ### The verification gate (`src/lib/turnstile-verification.ts`) -/

/-- `TurnstileConfig` from `src/lib/turnstile-verification.ts`
(`cacheDuration` in milliseconds). -/
structure TurnstileConfig where
  enabled : Bool
  bypassAuthenticated : Bool
  requiredForIPUsers : Bool
  cacheDuration : Int
  siteKey : Option String
  deriving DecidableEq, Repr

/-- The environment variables `getTurnstileConfig` reads.
`cacheDurationSeconds` is the result of
`parseInt(process.env.TURNSTILE_CACHE_DURATION || '300')`, modelled as the
parsed integer (well-formed numeric input assumed). -/
structure TurnstileEnv where
  enabledVar : Option String
  bypassVar : Option String
  requiredForIPVar : Option String
  cacheDurationSeconds : Int
  siteKeyVar : Option String
  deriving DecidableEq, Repr

/-- `getTurnstileConfig` from `src/lib/turnstile-verification.ts`:
`enabled` iff the env var is exactly `'true'`; the two bypass/required
flags default to true unless the env var is exactly `'false'`; the cache
duration is converted from seconds to milliseconds. -/
def getTurnstileConfig (env : TurnstileEnv) : TurnstileConfig :=
  { enabled := decide (env.enabledVar = some "true")
    bypassAuthenticated := !decide (env.bypassVar = some "false")
    requiredForIPUsers := !decide (env.requiredForIPVar = some "false")
    cacheDuration := env.cacheDurationSeconds * 1000
    siteKey := env.siteKeyVar }

/-- `isTurnstileRequired` from `src/lib/turnstile-verification.ts`. -/
def isTurnstileRequired (cfg : TurnstileConfig) (identityKey : String) : Bool :=
  if !cfg.enabled then false
  else if cfg.bypassAuthenticated && jsStartsWith identityKey "jwt:" then false
  else if cfg.bypassAuthenticated && jsStartsWith identityKey "session:" then false
  else if jsStartsWith identityKey "ip:" && cfg.requiredForIPUsers then true
  else false

/-- `getCacheKey` from `src/lib/turnstile-verification.ts`. -/
def getCacheKey (identityKey : String) : String :=
  "turnstile:verified:" ++ identityKey

/-- An entry of the in-process `verificationCache` map. -/
structure VerificationCache where
  token : String
  verifiedAt : Int
  deriving DecidableEq, Repr

/-- The verification-cache state: the shared Redis contents (cache key to
absolute expiry instant, in ms — `SET ... EX ttl` makes the key vanish
after `ttl` seconds) and the in-process map (cache key to record).  Redis
contents persist whether or not the client can currently reach them;
reachability is a per-call flag. -/
structure VerifyState where
  redisEntries : List (String × Int)
  memory : List (String × VerificationCache)
  deriving DecidableEq, Repr

/-- `redis.exists(key) === 1` at instant `now` (ms): the key is present and
not yet expired. -/
def redisHasKey (entries : List (String × Int)) (key : String) (now : Int) : Bool :=
  match lookupStr entries key with
  | some expiry => decide (now < expiry)
  | none => false

/-- `hasValidCachedVerification` from `src/lib/turnstile-verification.ts`.
Step 1 consults Redis (`redisReachable = false` models a missing client or
a thrown `exists` call); only a positive `exists` answer returns directly.
In every other case — including a reachable store that simply has no
record — step 2 falls through to the in-process map, returning true for a
non-expired record and deleting an expired one. -/
def hasValidCachedVerification (cfg : TurnstileConfig) (redisReachable : Bool)
    (st : VerifyState) (identityKey : String) (now : Int) : Bool × VerifyState :=
  let cacheKey := getCacheKey identityKey
  if redisReachable && redisHasKey st.redisEntries cacheKey now then
    (true, st)
  else
    match lookupStr st.memory cacheKey with
    | none => (false, st)
    | some cached =>
      if now - cached.verifiedAt < cfg.cacheDuration then (true, st)
      else (false, { st with memory := removeStr st.memory cacheKey })

/-- `isIdentityVerified` from `src/lib/turnstile-verification.ts` (a public
alias of `hasValidCachedVerification`). -/
def isIdentityVerified (cfg : TurnstileConfig) (redisReachable : Bool)
    (st : VerifyState) (identityKey : String) (now : Int) : Bool × VerifyState :=
  hasValidCachedVerification cfg redisReachable st identityKey now

/-- `cacheVerification` from `src/lib/turnstile-verification.ts`: write the
record to Redis with `EX max(1, floor(cacheDuration / 1000))` seconds
(skipped when the client is missing or the `set` throws), then mirror it
into the in-process map. -/
def cacheVerification (cfg : TurnstileConfig) (redisReachable : Bool)
    (st : VerifyState) (identityKey token : String) (now : Int) : VerifyState :=
  let cacheKey := getCacheKey identityKey
  let redisEntries :=
    if redisReachable then
      let ttlSeconds := max 1 (Int.fdiv cfg.cacheDuration 1000)
      insertStr st.redisEntries cacheKey (now + ttlSeconds * 1000)
    else st.redisEntries
  { redisEntries := redisEntries
    memory := insertStr st.memory cacheKey ⟨token, now⟩ }

/-! ### Lemmas about the verification cache -/

theorem hasValidCachedVerification_fst (cfg : TurnstileConfig) (r : Bool)
    (st : VerifyState) (identityKey : String) (now : Int) :
    (hasValidCachedVerification cfg r st identityKey now).1 =
      ((r && redisHasKey st.redisEntries (getCacheKey identityKey) now) ||
        (match lookupStr st.memory (getCacheKey identityKey) with
         | some c => decide (now - c.verifiedAt < cfg.cacheDuration)
         | none => false)) := by
  cases hrb : r && redisHasKey st.redisEntries (getCacheKey identityKey) now with
  | true => simp [hasValidCachedVerification, hrb]
  | false =>
    cases hm : lookupStr st.memory (getCacheKey identityKey) with
    | none => simp [hasValidCachedVerification, hrb, hm]
    | some c =>
      by_cases hv : now - c.verifiedAt < cfg.cacheDuration
      · simp [hasValidCachedVerification, hrb, hm, hv]
      · simp [hasValidCachedVerification, hrb, hm, hv]

theorem cacheVerification_memory_lookup (cfg : TurnstileConfig) (r : Bool)
    (st : VerifyState) (identityKey token : String) (now : Int) :
    lookupStr (cacheVerification cfg r st identityKey token now).memory
        (getCacheKey identityKey) = some ⟨token, now⟩ := by
  simp [cacheVerification, lookupStr_insertStr_self]

/-! ### C7: authenticated identities bypass the challenge -/

/-- **C7** (confirmed).  For an identity key of kind `jwt` or `session`
(i.e. starting with `"jwt:"` or `"session:"`), when the bypass flag is set
`isTurnstileRequired` returns false — whatever the `enabled` and
`requiredForIPUsers` flags are, and independently of any cached
verification state (the function never consults the cache). -/
theorem isTurnstileRequired_bypass_authenticated (cfg : TurnstileConfig)
    (identityKey : String)
    (hb : cfg.bypassAuthenticated = true)
    (hk : jsStartsWith identityKey "jwt:" = true ∨
      jsStartsWith identityKey "session:" = true) :
    isTurnstileRequired cfg identityKey = false := by
  rcases hk with h | h
  · cases he : cfg.enabled <;> simp [isTurnstileRequired, hb, h, he]
  · cases he : cfg.enabled <;>
      cases hj : jsStartsWith identityKey "jwt:" <;>
        simp [isTurnstileRequired, hb, h, he, hj]

/-- Witness for C7: gate enabled (env `TURNSTILE_ENABLED='true'`), bypass
defaulted on, identity kind `session` — no challenge required. -/
theorem isTurnstileRequired_bypass_authenticated_witness :
    isTurnstileRequired (getTurnstileConfig ⟨some "true", none, none, 300, none⟩)
      "session:abc123" = false := by
  exact isTurnstileRequired_bypass_authenticated
    (getTurnstileConfig ⟨some "true", none, none, 300, none⟩)
    "session:abc123" (by decide) (Or.inr (by decide))

/-! ### C6: the in-process map is not only a fallback for unreachability -/

/-- **C6** (amended).  The shared store is authoritative only in the
positive direction: a reachable store that reports the record returns
verified at once.  But whenever the store does not report the record —
unreachable, unconfigured, *or reachable with no record* — the result is
exactly the in-process check, identical to the fully-unreachable outcome;
in particular a reachable store with no record is overridden by a fresh
in-process entry. -/
theorem hasValidCachedVerification_semantics (cfg : TurnstileConfig)
    (st : VerifyState) (identityKey : String) (now : Int) :
    (redisHasKey st.redisEntries (getCacheKey identityKey) now = true →
      (hasValidCachedVerification cfg true st identityKey now).1 = true) ∧
    (redisHasKey st.redisEntries (getCacheKey identityKey) now = false →
      ∀ r : Bool, hasValidCachedVerification cfg r st identityKey now =
        hasValidCachedVerification cfg false st identityKey now) ∧
    (redisHasKey st.redisEntries (getCacheKey identityKey) now = false →
      ∀ c, lookupStr st.memory (getCacheKey identityKey) = some c →
        now - c.verifiedAt < cfg.cacheDuration →
        (hasValidCachedVerification cfg true st identityKey now).1 = true) := by
  refine ⟨?_, ?_, ?_⟩
  · intro h
    simp [hasValidCachedVerification, h]
  · intro h r
    simp [hasValidCachedVerification, h]
  · intro h c hm hv
    simp [hasValidCachedVerification, h, hm, hv]

/-- Witness for C6 (amended): a reachable store holding the record answers
verified; with an empty store the outcome equals the unreachable-store
outcome; and a fresh in-process record overrides a reachable empty store. -/
theorem hasValidCachedVerification_semantics_witness :
    (hasValidCachedVerification (getTurnstileConfig ⟨some "true", none, none, 300, none⟩)
        true ⟨[("turnstile:verified:ip:abc", 5000)], []⟩ "ip:abc" 2000).1 = true ∧
    (hasValidCachedVerification (getTurnstileConfig ⟨some "true", none, none, 300, none⟩)
        true ⟨[], [("turnstile:verified:ip:abc", ⟨"tok", 1000⟩)]⟩ "ip:abc" 2000).1 = true := by
  refine ⟨(hasValidCachedVerification_semantics _ _ _ _).1 (by decide), ?_⟩
  exact (hasValidCachedVerification_semantics
      (getTurnstileConfig ⟨some "true", none, none, 300, none⟩)
      ⟨[], [("turnstile:verified:ip:abc", ⟨"tok", 1000⟩)]⟩ "ip:abc" 2000).2.2
    (by decide) ⟨"tok", 1000⟩ (by decide) (by decide)

/-- Counterexample for C6 as stated: the store is reachable and reports no
record for the identity, yet the check returns verified because a fresh
in-process record exists — the reachable store is not authoritative for the
negative answer. -/
theorem cachedVerification_memory_overrides_reachable_store :
    redisHasKey ([] : List (String × Int)) "turnstile:verified:ip:abc" 2000 = false ∧
    (hasValidCachedVerification (getTurnstileConfig ⟨some "true", none, none, 300, none⟩)
        true ⟨[], [("turnstile:verified:ip:abc", ⟨"tok", 1000⟩)]⟩ "ip:abc" 2000).1 = true := by
  decide

/-! ### C9: record/check round trip and TTL expiry -/

/-- **C9** (confirmed).  For a positive configured cache duration of `s`
seconds and an identity with no pre-existing store record,
`cacheVerification` followed immediately by `isIdentityVerified` yields
true, whatever the store's reachability during either call; and at any
instant at least `s * 1000` ms after the recording, `isIdentityVerified`
yields false (the store record has expired and the in-process record is
stale). -/
theorem verification_roundtrip (env : TurnstileEnv) (s : Int) (hs : 1 ≤ s)
    (henv : env.cacheDurationSeconds = s) (st : VerifyState)
    (identityKey token : String)
    (hkey : lookupStr st.redisEntries (getCacheKey identityKey) = none)
    (now t : Int) (aw ar ar2 : Bool)
    (ht : now + s * 1000 ≤ t) :
    (isIdentityVerified (getTurnstileConfig env) ar
        (cacheVerification (getTurnstileConfig env) aw st identityKey token now)
        identityKey now).1 = true ∧
    (isIdentityVerified (getTurnstileConfig env) ar2
        (cacheVerification (getTurnstileConfig env) aw st identityKey token now)
        identityKey t).1 = false := by
  have hcd : (getTurnstileConfig env).cacheDuration = s * 1000 := by
    simp [getTurnstileConfig, henv]
  have hfd : Int.fdiv (s * 1000) 1000 = s := by
    rw [Int.fdiv_eq_ediv _ (by norm_num)]
    exact Int.mul_ediv_cancel s (by norm_num)
  have hexp : (cacheVerification (getTurnstileConfig env) aw st identityKey token now).redisEntries =
      if aw then insertStr st.redisEntries (getCacheKey identityKey) (now + s * 1000)
      else st.redisEntries := by
    cases aw <;> simp [cacheVerification, hcd, hfd, max_eq_right hs]
  constructor
  · rw [isIdentityVerified, hasValidCachedVerification_fst,
      cacheVerification_memory_lookup]
    simp only [Bool.or_eq_true, decide_eq_true_eq]
    right
    rw [hcd]
    omega
  · rw [isIdentityVerified, hasValidCachedVerification_fst,
      cacheVerification_memory_lookup]
    have hstale : decide (t - now < (getTurnstileConfig env).cacheDuration) = false := by
      simp only [decide_eq_false_iff_not, hcd]
      omega
    have hred : redisHasKey
        (cacheVerification (getTurnstileConfig env) aw st identityKey token now).redisEntries
        (getCacheKey identityKey) t = false := by
      rw [hexp]
      cases aw
      · simp [redisHasKey, hkey]
      · simp only [if_true]
        rw [redisHasKey, lookupStr_insertStr_self]
        simp only [decide_eq_false_iff_not]
        omega
    simp [hstale, hred]

/-- Witness for C9: 300-second cache, store reachable throughout — verified
immediately after recording at `now = 1000`, no longer verified at
`t = 301000`. -/
theorem verification_roundtrip_witness :
    (isIdentityVerified (getTurnstileConfig ⟨some "true", none, none, 300, none⟩) true
        (cacheVerification (getTurnstileConfig ⟨some "true", none, none, 300, none⟩)
          true ⟨[], []⟩ "ip:abc" "tok" 1000)
        "ip:abc" 1000).1 = true ∧
    (isIdentityVerified (getTurnstileConfig ⟨some "true", none, none, 300, none⟩) true
        (cacheVerification (getTurnstileConfig ⟨some "true", none, none, 300, none⟩)
          true ⟨[], []⟩ "ip:abc" "tok" 1000)
        "ip:abc" 301000).1 = false := by
  exact verification_roundtrip ⟨some "true", none, none, 300, none⟩ 300 (by decide)
    rfl ⟨[], []⟩ "ip:abc" "tok" rfl 1000 301000 true true true (by decide)

end CustomGPT
